import Mathlib

/-!
Verification development for the Universal Battery Card
(`src/universal-battery-card.js`, the v2 utility functions starting at
line 1279 and the `_calculateStats` aggregator at line 2152).

The JavaScript number domain is shallowly embedded as `JSF`: a finite
rational, positive or negative infinity, or NaN.  (JavaScript numbers are
IEEE doubles; the spec and claims are about exact arithmetic, so finite
values are modelled as exact rationals.  Negative zero is identified with
zero: none of the modelled code distinguishes them observably.)
-/

namespace UBC

/-- JavaScript number value: finite rational, ±Infinity, or NaN. -/
inductive JSF where
  | num (q : ℚ)
  | inf
  | ninf
  | nan
deriving DecidableEq, Repr

namespace JSF

/-- JS unary minus. -/
def jneg : JSF → JSF
  | num q => num (-q)
  | inf => ninf
  | ninf => inf
  | nan => nan

/-- JS subtraction `a - b` (IEEE semantics; `inf - inf = NaN`). -/
def jsub : JSF → JSF → JSF
  | nan, _ => nan
  | _, nan => nan
  | num a, num b => num (a - b)
  | num _, inf => ninf
  | num _, ninf => inf
  | inf, inf => nan
  | inf, _ => inf
  | ninf, ninf => nan
  | ninf, _ => ninf

/-- JS multiplication `a * b` (`0 * inf = NaN`). -/
def jmul : JSF → JSF → JSF
  | nan, _ => nan
  | _, nan => nan
  | num a, num b => num (a * b)
  | num a, inf => if 0 < a then inf else if a < 0 then ninf else nan
  | num a, ninf => if 0 < a then ninf else if a < 0 then inf else nan
  | inf, num b => if 0 < b then inf else if b < 0 then ninf else nan
  | ninf, num b => if 0 < b then ninf else if b < 0 then inf else nan
  | inf, inf => inf
  | inf, ninf => ninf
  | ninf, inf => ninf
  | ninf, ninf => inf

/-- JS division `a / b` (`x / 0 = ±inf` for `x ≠ 0`, `0 / 0 = NaN`,
`fin / inf = 0`, `inf / inf = NaN`; the dividing zero is `+0`). -/
def jdiv : JSF → JSF → JSF
  | nan, _ => nan
  | _, nan => nan
  | num a, num b =>
    if b = 0 then (if a = 0 then nan else if 0 < a then inf else ninf)
    else num (a / b)
  | num _, inf => num 0
  | num _, ninf => num 0
  | inf, num b => if 0 ≤ b then inf else ninf
  | ninf, num b => if 0 ≤ b then ninf else inf
  | inf, inf => nan
  | inf, ninf => nan
  | ninf, inf => nan
  | ninf, ninf => nan

/-- JS `Math.abs`. -/
def jabs : JSF → JSF
  | num q => num |q|
  | inf => inf
  | ninf => inf
  | nan => nan

/-- JS strict-less-than `a < b` (false whenever NaN is involved). -/
def jlt : JSF → JSF → Bool
  | nan, _ => false
  | _, nan => false
  | num a, num b => a < b
  | num _, inf => true
  | num _, ninf => false
  | inf, _ => false
  | ninf, ninf => false
  | ninf, _ => true

/-- JS `a <= b` (false whenever NaN is involved). -/
def jle : JSF → JSF → Bool
  | nan, _ => false
  | _, nan => false
  | num a, num b => a ≤ b
  | num _, inf => true
  | num _, ninf => false
  | inf, inf => true
  | inf, _ => false
  | ninf, _ => true

/-- JS strict equality with the literal `0` (`x === 0`); NaN and the
infinities compare unequal. -/
def jeq0 : JSF → Bool
  | num q => q = 0
  | _ => false

/-- Truncation toward zero of a rational (JS `%` uses truncated division). -/
def ratTrunc (q : ℚ) : ℤ := if 0 ≤ q then ⌊q⌋ else ⌈q⌉

/-- JS remainder `a % b` (sign of dividend; NaN when the dividend is
infinite or the divisor is zero; `a % ±inf = a` for finite `a`). -/
def jmod : JSF → JSF → JSF
  | nan, _ => nan
  | _, nan => nan
  | inf, _ => nan
  | ninf, _ => nan
  | num a, inf => num a
  | num a, ninf => num a
  | num a, num b => if b = 0 then nan else num (a - b * ratTrunc (a / b))

/-- JS `Math.floor`. -/
def jfloor : JSF → JSF
  | num q => num ⌊q⌋
  | inf => inf
  | ninf => ninf
  | nan => nan

/-- JS `Math.round` (half-way cases toward +∞). -/
def jround : JSF → JSF
  | num q => num ⌊q + 1/2⌋
  | inf => inf
  | ninf => ninf
  | nan => nan

/-- JS `Math.min` of two numbers (NaN-propagating). -/
def jmin : JSF → JSF → JSF
  | nan, _ => nan
  | _, nan => nan
  | a, b => if jle a b then a else b

end JSF

/-! ## String helpers (JS `toLowerCase`, `padStart`, number rendering) -/

/-- ASCII lower-casing of a string, modelling `String.prototype.toLowerCase`
on the ASCII range (the only range the card's unit strings use). -/
def asciiLower (s : String) : String := String.mk (s.toList.map Char.toLower)

/-- Whether `u` differs from `v` only in letter case. -/
def isCaseVariant (u v : String) : Bool := asciiLower u = asciiLower v

/-- JS `s.padStart(2, '0')`. -/
def padStart2 (s : String) : String :=
  if s.length < 2 then String.mk (List.replicate (2 - s.length) '0') ++ s else s

/-- Left-pad a string with zeros to `d` characters (used to render the
fractional digits of `toFixed`). -/
def padZeros (d : ℕ) (s : String) : String :=
  String.mk (List.replicate (d - s.length) '0') ++ s

/-- JS `Number.prototype.toFixed(d)` on a finite value: the sign is split
off first, then `|q|·10^d` is rounded to the nearest integer, half-way
cases up, and rendered with `d` fractional digits. -/
def toFixedStr (q : ℚ) (d : ℕ) : String :=
  let m := (⌊|q| * ((10 ^ d : ℕ) : ℚ) + 1/2⌋).toNat
  let core := toString (m / 10 ^ d) ++
    (if d = 0 then "" else "." ++ padZeros d (toString (m % 10 ^ d)))
  (if q < 0 then "-" else "") ++ core

/-- JS `x.toFixed(d)` on the full number domain. -/
def jsToFixed (x : JSF) (d : ℕ) : String :=
  match x with
  | JSF.num q => toFixedStr q d
  | JSF.inf => "Infinity"
  | JSF.ninf => "-Infinity"
  | JSF.nan => "NaN"

/-- JS `x.toString()` as used by the card: it is only ever applied to
results of `Math.floor`/`Math.round`, so the finite case is an integer and
renders as its decimal digits (with a leading `-` when negative).  The
non-integer fallback branch is unreachable in every use below. -/
def numToString (x : JSF) : String :=
  match x with
  | JSF.num q => if q.den = 1 then toString q.num
      else toString q.num ++ "/" ++ toString q.den
  | JSF.inf => "Infinity"
  | JSF.ninf => "-Infinity"
  | JSF.nan => "NaN"

/-! ## `parseFloat`

Model of JS `parseFloat`: skip leading whitespace, read an optional sign,
then the longest prefix that is either the literal `Infinity` or a decimal
literal `Digits [. Digits] [ (e|E) [+|-] Digits ]` / `. Digits [exp]`;
trailing garbage is ignored; if no prefix parses, the result is NaN. -/

/-- JS whitespace accepted by `parseFloat` (ASCII portion). -/
def isJsWs (c : Char) : Bool :=
  c = ' ' || c = '\t' || c = '\n' || c = '\r' || c = '\x0b' || c = '\x0c'

/-- Numeric value of a list of decimal digit characters. -/
def digitsVal (l : List Char) : ℕ :=
  l.foldl (fun a c => 10 * a + (c.toNat - 48)) 0

/-- Parse the optional exponent part at the given suffix; an `e`/`E` not
followed by at least one digit contributes exponent 0 (the exponent part
is then not part of the longest valid prefix). -/
def parseExponent (cs : List Char) : ℤ :=
  match cs with
  | c :: rest =>
    if c = 'e' || c = 'E' then
      match rest with
      | s :: rest2 =>
        if s = '+' then
          (let d := rest2.takeWhile Char.isDigit
           if d.isEmpty then 0 else (digitsVal d : ℤ))
        else if s = '-' then
          (let d := rest2.takeWhile Char.isDigit
           if d.isEmpty then 0 else -(digitsVal d : ℤ))
        else
          (let d := rest.takeWhile Char.isDigit
           if d.isEmpty then 0 else (digitsVal d : ℤ))
      | [] => 0
    else 0
  | [] => 0

/-- Scale a rational by `10^e`. -/
def applyExp (q : ℚ) (e : ℤ) : ℚ :=
  if 0 ≤ e then q * ((10 ^ e.toNat : ℕ) : ℚ) else q / ((10 ^ (-e).toNat : ℕ) : ℚ)

/-- JS `parseFloat`. -/
def parseFloat (s : String) : JSF :=
  let cs := s.toList.dropWhile isJsWs
  let neg := match cs with
    | '-' :: _ => true
    | _ => false
  let cs2 := match cs with
    | '-' :: r => r
    | '+' :: r => r
    | _ => cs
  if cs2.take 8 = "Infinity".toList then (if neg then JSF.ninf else JSF.inf)
  else
    let intD := cs2.takeWhile Char.isDigit
    let rest1 := cs2.dropWhile Char.isDigit
    if intD.isEmpty then
      match rest1 with
      | '.' :: r2 =>
        let fracD := r2.takeWhile Char.isDigit
        if fracD.isEmpty then JSF.nan
        else
          let e := parseExponent (r2.dropWhile Char.isDigit)
          let base : ℚ := (digitsVal fracD : ℚ) / ((10 ^ fracD.length : ℕ) : ℚ)
          JSF.num (if neg then -(applyExp base e) else applyExp base e)
      | _ => JSF.nan
    else
      match rest1 with
      | '.' :: r2 =>
        let fracD := r2.takeWhile Char.isDigit
        let e := parseExponent (r2.dropWhile Char.isDigit)
        let base : ℚ :=
          (digitsVal intD : ℚ) + (digitsVal fracD : ℚ) / ((10 ^ fracD.length : ℕ) : ℚ)
        JSF.num (if neg then -(applyExp base e) else applyExp base e)
      | _ =>
        let e := parseExponent rest1
        let base : ℚ := (digitsVal intD : ℚ)
        JSF.num (if neg then -(applyExp base e) else applyExp base e)

/-! ## Data model: host state object and card configuration

Entity states in the host are strings with an optional
`unit_of_measurement` attribute; `hass.states` is modelled as an
association list.  Configuration options that the modelled code reads are
either entity ids (strings; `undefined`/`null` modelled as `none`, and the
code treats the empty string as falsy too) or fixed values.  Fixed values
are fed to `parseFloat` by the code, so they are modelled as the strings
the parser sees (a YAML numeric literal behaves identically to its string
form under `parseFloat`). -/

structure EntityState where
  state : String
  unit_of_measurement : Option String
deriving DecidableEq, Repr

structure Hass where
  states : List (String × EntityState)
deriving DecidableEq, Repr

/-- Lookup `hass.states[entityId]` (`undefined` when absent). -/
def Hass.lookup (h : Hass) (i : String) : Option EntityState :=
  h.states.lookup i

structure Config where
  soc_entity : Option String := none
  power_entity : Option String := none
  soc_energy_entity : Option String := none
  capacity_entity : Option String := none
  capacity : Option String := none
  reserve_entity : Option String := none
  reserve : Option String := none
  cutoff_entity : Option String := none
  cutoff : Option String := none
  charge_rate_entity : Option String := none
  charge_rate : Option String := none
  discharge_rate_entity : Option String := none
  discharge_rate : Option String := none
  temp_entity : Option String := none
  cycles_entity : Option String := none
  health_entity : Option String := none
  decimal_places : Option ℚ := none
  enable_trickle_charge_filter : Bool := false
  trickle_charge_threshold : Option ℚ := none
deriving DecidableEq, Repr

/-! ## Utility functions (`src/universal-battery-card.js` 1279–1419) -/

/-- Result record of `getEntityValue`. -/
structure EntityResult where
  value : Option JSF
  unit : String
  available : Bool
deriving DecidableEq, Repr

/-- Result record of `getEntityOrFixedValue`. -/
structure FixedResult where
  value : Option JSF
  unit : String
  available : Bool
  isFixed : Bool
deriving DecidableEq, Repr

/-- Source `getEntityValue(hass, entityId)` (line 1306): `null` value and
`available=false` when the id is falsy, the entity is missing, or
`parseFloat` of its state is NaN; else the parsed value with the entity's
unit (or `''`). -/
def getEntityValue (hass : Hass) (entityId : Option String) : EntityResult :=
  match entityId with
  | none => ⟨none, "", false⟩
  | some i =>
    if i = "" then ⟨none, "", false⟩
    else
      match hass.lookup i with
      | none => ⟨none, "", false⟩
      | some e =>
        match parseFloat e.state with
        | JSF.nan => ⟨none, "", false⟩
        | v =>
          let unit := match e.unit_of_measurement with
            | some u => if u = "" then "" else u
            | none => ""
          ⟨some v, unit, true⟩

/-- Entity fallback path of `getEntityOrFixedValue` (the code after the
fixed-value check at line 1286): like `getEntityValue`, but the unit
fallback is `defaultUnit` instead of `''`, and `isFixed = false`. -/
def getEntityOrFixedValueEntityPath (hass : Hass) (entityId : Option String)
    (defaultUnit : String) : FixedResult :=
  match entityId with
  | none => ⟨none, "", false, false⟩
  | some i =>
    if i = "" then ⟨none, "", false, false⟩
    else
      match hass.lookup i with
      | none => ⟨none, "", false, false⟩
      | some e =>
        match parseFloat e.state with
        | JSF.nan => ⟨none, "", false, false⟩
        | v =>
          let unit := match e.unit_of_measurement with
            | some u => if u = "" then defaultUnit else u
            | none => defaultUnit
          ⟨some v, unit, true, false⟩

/-- Source `getEntityOrFixedValue(hass, config, entityKey, fixedKey,
defaultUnit)` (line 1279).  The two config slots are passed as the already-looked-up
`fixedVal := config[fixedKey]` and `entityId := config[entityKey]`.
A defined, non-null, non-empty fixed value wins and is parsed; otherwise
the entity path mirrors `getEntityValue` with `defaultUnit` as the unit
fallback. -/
def getEntityOrFixedValue (hass : Hass) (fixedVal : Option String)
    (entityId : Option String) (defaultUnit : String) : FixedResult :=
  match fixedVal with
  | some s =>
    if s = "" then getEntityOrFixedValueEntityPath hass entityId defaultUnit
    else ⟨some (parseFloat s), defaultUnit, true, true⟩
  | none => getEntityOrFixedValueEntityPath hass entityId defaultUnit

/-- Source `normalizeUnit(value, unit)` (line 1332): multiply by 1000 when the
lower-cased unit is `kwh` or `kw`, else unchanged. -/
def normalizeUnit (value : JSF) (unit : String) : JSF :=
  let lowerUnit := asciiLower unit
  if lowerUnit = "kwh" ∨ lowerUnit = "kw" then value.jmul (JSF.num 1000)
  else value

/-- Value/unit pair returned by the formatters. -/
structure FmtResult where
  value : String
  unit : String
deriving DecidableEq, Repr

/-- Source `formatPower(watts, decimals = 0)` (line 1357): kilo-units with
`decimals || 1` decimals when `|watts| >= 1000`, else watts rounded to an
integer. -/
def formatPower (watts : JSF) (decimals : ℕ) : FmtResult :=
  if JSF.jle (JSF.num 1000) watts.jabs then
    ⟨jsToFixed (watts.jdiv (JSF.num 1000)) (if decimals = 0 then 1 else decimals), "kW"⟩
  else ⟨numToString watts.jround, "W"⟩

/-- Source `formatDuration(minutes)` (line 1369): dashes for `null` or negative
input, `99:59:59+` when the floored hour count exceeds 99, else
zero-padded `HH:MM:SS`. -/
def formatDuration (minutes : Option JSF) : String :=
  match minutes with
  | none => "--:--:--"
  | some m =>
    if JSF.jlt m (JSF.num 0) then "--:--:--"
    else
      let hours := (m.jdiv (JSF.num 60)).jfloor
      let mins := (m.jmod (JSF.num 60)).jfloor
      let secs := ((m.jmul (JSF.num 60)).jmod (JSF.num 60)).jfloor
      if JSF.jlt (JSF.num 99) hours then "99:59:59+"
      else padStart2 (numToString hours) ++ ":" ++ padStart2 (numToString mins)
        ++ ":" ++ padStart2 (numToString secs)

/-- Source `calculateTimeToTarget(currentEnergy, targetEnergy, powerWatts)`
(line 1401): `null` when the power is (strictly equal to) zero or points
away from the target, else `|diff| / |power| * 60` minutes. -/
def calculateTimeToTarget (currentEnergy targetEnergy powerWatts : JSF) :
    Option JSF :=
  if powerWatts.jeq0 then none
  else
    let energyDiff := targetEnergy.jsub currentEnergy
    if (JSF.jlt (JSF.num 0) energyDiff && JSF.jlt powerWatts (JSF.num 0)) ||
        (JSF.jlt energyDiff (JSF.num 0) && JSF.jlt (JSF.num 0) powerWatts) then
      none
    else
      let hours := energyDiff.jabs.jdiv powerWatts.jabs
      some (hours.jmul (JSF.num 60))

/-- Battery status classification result. -/
inductive BatteryStatus where
  | charging
  | discharging
  | idle
deriving DecidableEq, Repr

/-- Source `getBatteryStatus(power, threshold = 0)` (line 1415). -/
def getBatteryStatus (power threshold : JSF) : BatteryStatus :=
  if JSF.jlt threshold power then BatteryStatus.charging
  else if JSF.jlt power threshold.jneg then BatteryStatus.discharging
  else BatteryStatus.idle

/-! ## The stats aggregator (`_calculateStats`, line 2152) -/

/-- The snapshot object returned by `_calculateStats`. -/
structure Stats where
  socPercent : JSF
  socEnergyWh : Option JSF
  power : JSF
  status : BatteryStatus
  capacityWh : Option JSF
  reservePercent : Option JSF
  reserveWh : Option JSF
  timeToTarget : Option JSF
  targetPercent : Option JSF
  chargeRateW : Option JSF
  chargeRatePercent : Option JSF
  dischargeRateW : Option JSF
  dischargeRatePercent : Option JSF
  cutoffPercent : Option JSF
  powerPercent : JSF
  temp : Option JSF
  tempUnit : String
  cycles : Option JSF
  health : Option JSF
  hasStats : Bool
  decimals : ℚ
deriving DecidableEq, Repr

/-- Line 2167: `if ((powerValue.unit || '').toLowerCase() === 'kw')
power *= 1000`. -/
def normalizedPower (pv : JSF) (punit : String) : JSF :=
  if asciiLower punit = "kw" then pv.jmul (JSF.num 1000) else pv

/-- Lines 2168–2170: the trickle-charge filter — with the filter enabled
and `|power|` strictly below the threshold (default 25), force power to
zero. -/
def trickleFiltered (config : Config) (p : JSF) : JSF :=
  if config.enable_trickle_charge_filter &&
      JSF.jlt p.jabs (JSF.num (config.trickle_charge_threshold.getD 25)) then
    JSF.num 0
  else p

/-- JS truthiness of a nullable number (`null`, `0` and `NaN` are falsy). -/
def truthyOpt (x : Option JSF) : Bool :=
  match x with
  | none => false
  | some (JSF.num q) => decide (q ≠ 0)
  | some JSF.nan => false
  | some _ => true

/-- Lines 2210–2223: the time-estimate block.  Requires SOC-energy,
capacity and nonzero power; while charging the target percent is the
cutoff when resolved, else 100; while discharging it is the reserve, and
no projection is attempted without one.  Returns
`(timeToTarget, targetPercent)`. -/
def computeTimeEstimates (socEnergyWh capacityWh cutoffPercent reservePercent : Option JSF)
    (power : JSF) (status : BatteryStatus) : Option JSF × Option JSF :=
  match socEnergyWh, capacityWh with
  | some e, some c =>
    if power.jeq0 then (none, none)
    else
      match status with
      | BatteryStatus.charging =>
        let targetPercent := cutoffPercent.getD (JSF.num 100)
        let targetEnergy := c.jmul (targetPercent.jdiv (JSF.num 100))
        (calculateTimeToTarget e targetEnergy power, some targetPercent)
      | BatteryStatus.discharging =>
        match reservePercent with
        | some r =>
          let targetEnergy := c.jmul (r.jdiv (JSF.num 100))
          (calculateTimeToTarget e targetEnergy power, some r)
        | none => (none, none)
      | BatteryStatus.idle => (none, none)
  | _, _ => (none, none)

/-- The body of `_calculateStats` after the two mandatory-reading guards
have passed: `socV` and `pv` are the resolved SOC and power values and
`punit` the power reading's unit. -/
def mkStats (config : Config) (hass : Hass) (decimals : ℚ) (socV pv : JSF)
    (punit : String) : Stats :=
  let power := trickleFiltered config (normalizedPower pv punit)
  let status := getBatteryStatus power (JSF.num 0)
  let socEnergyValue := getEntityValue hass config.soc_energy_entity
  let socEnergyWh : Option JSF :=
    match socEnergyValue.available, socEnergyValue.value with
    | true, some v => some (normalizeUnit v socEnergyValue.unit)
    | _, _ => none
  let capacityData := getEntityOrFixedValue hass config.capacity config.capacity_entity "kWh"
  let capacityWh : Option JSF :=
    match capacityData.available, capacityData.value with
    | true, some v =>
      some (if capacityData.isFixed then v.jmul (JSF.num 1000)
            else normalizeUnit v capacityData.unit)
    | _, _ => none
  let reserveData := getEntityOrFixedValue hass config.reserve config.reserve_entity "%"
  let reservePercent : Option JSF :=
    match reserveData.available, reserveData.value with
    | true, some v => some v
    | _, _ => none
  let reserveWh : Option JSF :=
    match reservePercent, capacityWh with
    | some r, some c => some (c.jmul (r.jdiv (JSF.num 100)))
    | _, _ => none
  let cutoffData := getEntityOrFixedValue hass config.cutoff config.cutoff_entity "%"
  let cutoffPercent : Option JSF :=
    match cutoffData.available, cutoffData.value with
    | true, some v => some v
    | _, _ => none
  let tt := computeTimeEstimates socEnergyWh capacityWh cutoffPercent reservePercent power status
  let chargeRateData := getEntityOrFixedValue hass config.charge_rate config.charge_rate_entity "W"
  let chargeRateW : Option JSF :=
    match chargeRateData.available, chargeRateData.value with
    | true, some v =>
      some (if chargeRateData.isFixed then v else normalizeUnit v chargeRateData.unit)
    | _, _ => none
  let chargeRatePercent : Option JSF :=
    match chargeRateW with
    | some cr =>
      if JSF.jlt (JSF.num 0) power && JSF.jlt (JSF.num 0) cr then
        some (JSF.jmin (JSF.num 100) ((power.jdiv cr).jmul (JSF.num 100)))
      else none
    | none => none
  let dischargeRateData := getEntityOrFixedValue hass config.discharge_rate config.discharge_rate_entity "W"
  let dischargeRateW : Option JSF :=
    match dischargeRateData.available, dischargeRateData.value with
    | true, some v =>
      some (if dischargeRateData.isFixed then v else normalizeUnit v dischargeRateData.unit)
    | _, _ => none
  let dischargeRatePercent : Option JSF :=
    match dischargeRateW with
    | some dr =>
      if JSF.jlt power (JSF.num 0) && JSF.jlt (JSF.num 0) dr then
        some (JSF.jmin (JSF.num 100) ((power.jabs.jdiv dr).jmul (JSF.num 100)))
      else none
    | none => none
  let powerPercent : JSF :=
    if status = BatteryStatus.charging ∧ truthyOpt chargeRateW = true ∧
        JSF.jlt (JSF.num 0) (chargeRateW.getD (JSF.num 0)) = true then
      JSF.jmin (JSF.num 100) ((power.jabs.jdiv (chargeRateW.getD (JSF.num 0))).jmul (JSF.num 100))
    else if status = BatteryStatus.discharging ∧ truthyOpt dischargeRateW = true ∧
        JSF.jlt (JSF.num 0) (dischargeRateW.getD (JSF.num 0)) = true then
      JSF.jmin (JSF.num 100) ((power.jabs.jdiv (dischargeRateW.getD (JSF.num 0))).jmul (JSF.num 100))
    else JSF.num 0
  let tempValue := getEntityValue hass config.temp_entity
  let cyclesValue := getEntityValue hass config.cycles_entity
  let healthValue := getEntityValue hass config.health_entity
  let temp := if tempValue.available then tempValue.value else none
  let tempUnit := if tempValue.unit = "" then "°C" else tempValue.unit
  let cycles := if cyclesValue.available then cyclesValue.value else none
  let health := if healthValue.available then healthValue.value else none
  let hasStats := temp.isSome || cycles.isSome || health.isSome
  { socPercent := socV
    socEnergyWh := socEnergyWh
    power := power
    status := status
    capacityWh := capacityWh
    reservePercent := reservePercent
    reserveWh := reserveWh
    timeToTarget := tt.1
    targetPercent := tt.2
    chargeRateW := chargeRateW
    chargeRatePercent := chargeRatePercent
    dischargeRateW := dischargeRateW
    dischargeRatePercent := dischargeRatePercent
    cutoffPercent := cutoffPercent
    powerPercent := powerPercent
    temp := temp
    tempUnit := tempUnit
    cycles := cycles
    health := health
    hasStats := hasStats
    decimals := decimals }

/-- Source `_calculateStats()` (line 2152): `null` unless both the SOC and the
power reading are available and non-null; otherwise the full snapshot. -/
def calculateStats (config : Config) (hass : Hass) : Option Stats :=
  let decimals := config.decimal_places.getD 3
  let socValue := getEntityValue hass config.soc_entity
  match socValue.available, socValue.value with
  | true, some socV =>
    let powerValue := getEntityValue hass config.power_entity
    match powerValue.available, powerValue.value with
    | true, some pv =>
      some (mkStats config hass decimals socV pv powerValue.unit)
    | _, _ => none
  | _, _ => none

/-! ## Computation lemmas for the JS operations on finite values -/

@[simp] lemma jeq0_num (q : ℚ) : JSF.jeq0 (JSF.num q) = decide (q = 0) := rfl

@[simp] lemma jsub_num (a b : ℚ) :
    JSF.jsub (JSF.num a) (JSF.num b) = JSF.num (a - b) := rfl

@[simp] lemma jlt_num (a b : ℚ) :
    JSF.jlt (JSF.num a) (JSF.num b) = decide (a < b) := rfl

@[simp] lemma jle_num (a b : ℚ) :
    JSF.jle (JSF.num a) (JSF.num b) = decide (a ≤ b) := rfl

@[simp] lemma jabs_num (a : ℚ) : JSF.jabs (JSF.num a) = JSF.num |a| := rfl

@[simp] lemma jneg_num (a : ℚ) : JSF.jneg (JSF.num a) = JSF.num (-a) := rfl

@[simp] lemma jmul_num (a b : ℚ) :
    JSF.jmul (JSF.num a) (JSF.num b) = JSF.num (a * b) := rfl

@[simp] lemma jfloor_num (a : ℚ) :
    JSF.jfloor (JSF.num a) = JSF.num (⌊a⌋ : ℤ) := rfl

@[simp] lemma jround_num (a : ℚ) :
    JSF.jround (JSF.num a) = JSF.num (⌊a + 1/2⌋ : ℤ) := rfl

lemma jdiv_num_of_ne (a b : ℚ) (hb : b ≠ 0) :
    JSF.jdiv (JSF.num a) (JSF.num b) = JSF.num (a / b) := by
  simp [JSF.jdiv, hb]

lemma jmod_num_of_ne (a b : ℚ) (hb : b ≠ 0) :
    JSF.jmod (JSF.num a) (JSF.num b) = JSF.num (a - b * JSF.ratTrunc (a / b)) := by
  simp [JSF.jmod, hb]

lemma ratTrunc_of_nonneg (q : ℚ) (h : 0 ≤ q) : JSF.ratTrunc q = ⌊q⌋ := by
  simp [JSF.ratTrunc, h]

/-- Relation `a < b` (in JS order) forbids `b < a`; NaN makes both sides false. -/
lemma jlt_asymm {a b : JSF} (h : JSF.jlt a b = true) : JSF.jlt b a = false := by
  cases a <;> cases b <;> simp_all [JSF.jlt]
  exact le_of_lt h

/-- Relation `a <= b` (in JS order) forbids `b < a`. -/
lemma jlt_eq_false_of_jle {a b : JSF} (h : JSF.jle a b = true) :
    JSF.jlt b a = false := by
  cases a <;> cases b <;> simp_all [JSF.jlt, JSF.jle]

/-- Rendering an integer-valued finite JS number. -/
lemma numToString_intCast (k : ℤ) :
    numToString (JSF.num (k : ℚ)) = toString k := by
  simp [numToString, Rat.den_intCast, Rat.num_intCast]

/-! ## C1 — `calculateTimeToTarget` -/

/-- Claim C1. For all finite `currentEnergyWh`, `targetEnergyWh`, `powerW`,
`calculateTimeToTarget` is absent when the power is zero, absent when the
target lies above the current energy while the power is negative, absent
when the target lies below while the power is positive, and otherwise
equals `|target - current| / |power| * 60` minutes; in particular
`calculateTimeToTarget(3000, 5000, 1000) = 120`. -/
theorem claim1_calculateTimeToTarget :
    (∀ c t p : ℚ,
      (p = 0 →
        calculateTimeToTarget (JSF.num c) (JSF.num t) (JSF.num p) = none) ∧
      (c < t → p < 0 →
        calculateTimeToTarget (JSF.num c) (JSF.num t) (JSF.num p) = none) ∧
      (t < c → 0 < p →
        calculateTimeToTarget (JSF.num c) (JSF.num t) (JSF.num p) = none) ∧
      (p ≠ 0 → ¬(c < t ∧ p < 0) → ¬(t < c ∧ 0 < p) →
        calculateTimeToTarget (JSF.num c) (JSF.num t) (JSF.num p)
          = some (JSF.num (|t - c| / |p| * 60)))) ∧
    calculateTimeToTarget (JSF.num 3000) (JSF.num 5000) (JSF.num 1000)
      = some (JSF.num 120) := by
  have main : ∀ c t p : ℚ,
      (p = 0 →
        calculateTimeToTarget (JSF.num c) (JSF.num t) (JSF.num p) = none) ∧
      (c < t → p < 0 →
        calculateTimeToTarget (JSF.num c) (JSF.num t) (JSF.num p) = none) ∧
      (t < c → 0 < p →
        calculateTimeToTarget (JSF.num c) (JSF.num t) (JSF.num p) = none) ∧
      (p ≠ 0 → ¬(c < t ∧ p < 0) → ¬(t < c ∧ 0 < p) →
        calculateTimeToTarget (JSF.num c) (JSF.num t) (JSF.num p)
          = some (JSF.num (|t - c| / |p| * 60))) := by
    intro c t p
    refine ⟨fun hp => by simp [calculateTimeToTarget, hp], ?_, ?_, ?_⟩
    · intro h1 h2
      simp [calculateTimeToTarget, h2.ne, sub_pos.mpr h1, h2]
    · intro h1 h2
      simp [calculateTimeToTarget, h2.ne.symm, sub_neg.mpr h1, h2,
        not_lt_of_gt (sub_neg.mpr h1)]
    · intro hp h1 h2
      have hd : ¬(0 < t - c ∧ p < 0) := by
        rw [sub_pos]; exact fun h => h1 ⟨h.1, h.2⟩
      have hd2 : ¬(t - c < 0 ∧ 0 < p) := by
        rw [sub_neg]; exact fun h => h2 ⟨h.1, h.2⟩
      have habs : |p| ≠ 0 := abs_ne_zero.mpr hp
      simp only [calculateTimeToTarget, jeq0_num, jsub_num, jlt_num, jabs_num,
        decide_eq_true_eq, Bool.or_eq_true, Bool.and_eq_true]
      rw [if_neg hp, if_neg, jdiv_num_of_ne _ _ habs, jmul_num]
      intro hcond
      rcases hcond with ⟨hdpos, hpneg⟩ | ⟨hdneg, hppos⟩
      · exact h1 ⟨sub_pos.mp hdpos, hpneg⟩
      · exact h2 ⟨sub_neg.mp hdneg, hppos⟩
  refine ⟨main, ?_⟩
  have h := (main 3000 5000 1000).2.2.2 (by norm_num) (by norm_num) (by norm_num)
  rw [h]
  norm_num

/-! ## Inversion of `calculateStats` and field lemmas for `mkStats` -/

/-- A snapshot comes from `mkStats` applied to the two resolved mandatory
readings. -/
lemma calculateStats_inv {config : Config} {hass : Hass} {s : Stats}
    (h : calculateStats config hass = some s) :
    ∃ socV pv,
      (getEntityValue hass config.soc_entity).available = true ∧
      (getEntityValue hass config.soc_entity).value = some socV ∧
      (getEntityValue hass config.power_entity).available = true ∧
      (getEntityValue hass config.power_entity).value = some pv ∧
      s = mkStats config hass (config.decimal_places.getD 3) socV pv
            (getEntityValue hass config.power_entity).unit := by
  revert h
  simp only [calculateStats]
  cases hsa : (getEntityValue hass config.soc_entity).available with
  | false => intro h; simp at h
  | true =>
    cases hsv : (getEntityValue hass config.soc_entity).value with
    | none => intro h; simp at h
    | some socV =>
      cases hpa : (getEntityValue hass config.power_entity).available with
      | false => intro h; simp at h
      | true =>
        cases hpv : (getEntityValue hass config.power_entity).value with
        | none => intro h; simp at h
        | some pv =>
          intro h
          simp only [Option.some.injEq] at h
          exact ⟨socV, pv, rfl, rfl, rfl, rfl, h.symm⟩

lemma mkStats_power (config : Config) (hass : Hass) (d : ℚ) (socV pv : JSF)
    (punit : String) :
    (mkStats config hass d socV pv punit).power =
      trickleFiltered config (normalizedPower pv punit) := rfl

lemma mkStats_status (config : Config) (hass : Hass) (d : ℚ) (socV pv : JSF)
    (punit : String) :
    (mkStats config hass d socV pv punit).status =
      getBatteryStatus (mkStats config hass d socV pv punit).power (JSF.num 0) := rfl

lemma mkStats_timeToTarget (config : Config) (hass : Hass) (d : ℚ)
    (socV pv : JSF) (punit : String) :
    (mkStats config hass d socV pv punit).timeToTarget =
      (computeTimeEstimates (mkStats config hass d socV pv punit).socEnergyWh
        (mkStats config hass d socV pv punit).capacityWh
        (mkStats config hass d socV pv punit).cutoffPercent
        (mkStats config hass d socV pv punit).reservePercent
        (mkStats config hass d socV pv punit).power
        (mkStats config hass d socV pv punit).status).1 := rfl

lemma mkStats_targetPercent (config : Config) (hass : Hass) (d : ℚ)
    (socV pv : JSF) (punit : String) :
    (mkStats config hass d socV pv punit).targetPercent =
      (computeTimeEstimates (mkStats config hass d socV pv punit).socEnergyWh
        (mkStats config hass d socV pv punit).capacityWh
        (mkStats config hass d socV pv punit).cutoffPercent
        (mkStats config hass d socV pv punit).reservePercent
        (mkStats config hass d socV pv punit).power
        (mkStats config hass d socV pv punit).status).2 := rfl

/-- Every stored snapshot classifies its own stored power. -/
lemma calculateStats_status_eq {config : Config} {hass : Hass} {s : Stats}
    (h : calculateStats config hass = some s) :
    s.status = getBatteryStatus s.power (JSF.num 0) := by
  obtain ⟨socV, pv, -, -, -, -, hs⟩ := calculateStats_inv h
  rw [hs]
  exact mkStats_status ..

/-! ## C3 — `getBatteryStatus` and the snapshot status invariant -/

/-- Claim C3. `getBatteryStatus(p, 0)` is `charging` iff `p > 0`,
`discharging` iff `p < 0`, and `idle` otherwise (`p = 0` gives `idle`);
consequently in every snapshot the stored (normalized, trickle-filtered)
power classifies the stored status: positive power means `charging`,
negative power means `discharging`, otherwise `idle`. -/
theorem claim3_getBatteryStatus :
    (∀ p : ℚ,
      (getBatteryStatus (JSF.num p) (JSF.num 0) = BatteryStatus.charging ↔ 0 < p) ∧
      (getBatteryStatus (JSF.num p) (JSF.num 0) = BatteryStatus.discharging ↔ p < 0) ∧
      (getBatteryStatus (JSF.num p) (JSF.num 0) = BatteryStatus.idle ↔ p = 0)) ∧
    (∀ config hass s, calculateStats config hass = some s →
      (JSF.jlt (JSF.num 0) s.power = true → s.status = BatteryStatus.charging) ∧
      (JSF.jlt s.power (JSF.num 0) = true → s.status = BatteryStatus.discharging) ∧
      (JSF.jlt (JSF.num 0) s.power = false → JSF.jlt s.power (JSF.num 0) = false →
        s.status = BatteryStatus.idle)) := by
  constructor
  · intro p
    rcases lt_trichotomy p 0 with hp | hp | hp
    · have h1 : ¬(0 < p) := asymm hp
      simp [getBatteryStatus, hp, h1, hp.ne]
    · simp [getBatteryStatus, hp]
    · have h1 : ¬(p < 0) := asymm hp
      simp [getBatteryStatus, hp, h1, hp.ne.symm]
  · intro config hass s h
    have hst := calculateStats_status_eq h
    refine ⟨fun h1 => ?_, fun h1 => ?_, fun h1 h2 => ?_⟩
    · rw [hst]
      simp [getBatteryStatus, h1]
    · rw [hst]
      have h2 := jlt_asymm h1
      simp only [getBatteryStatus, JSF.jneg, neg_zero, h2, Bool.false_eq_true,
        if_false, h1, if_true]
    · rw [hst]
      simp [getBatteryStatus, JSF.jneg, neg_zero, h1, h2]

/-- Witness for C3 on a concrete snapshot (power 500 W, charging). -/
theorem claim3_witness :
    getBatteryStatus (JSF.num 2) (JSF.num 0) = BatteryStatus.charging ∧
    (calculateStats
        { soc_entity := some "s.soc", power_entity := some "s.p" }
        ⟨[("s.soc", ⟨"50", some "%"⟩), ("s.p", ⟨"500", some "W"⟩)]⟩).map Stats.status
      = some BatteryStatus.charging := by
  constructor
  · exact ((claim3_getBatteryStatus.1 2).1).mpr (by norm_num)
  · have h := (claim3_getBatteryStatus.2
      { soc_entity := some "s.soc", power_entity := some "s.p" }
      ⟨[("s.soc", ⟨"50", some "%"⟩), ("s.p", ⟨"500", some "W"⟩)]⟩
      (mkStats { soc_entity := some "s.soc", power_entity := some "s.p" }
        ⟨[("s.soc", ⟨"50", some "%"⟩), ("s.p", ⟨"500", some "W"⟩)]⟩ 3
        (JSF.num 50) (JSF.num 500) "W") (by with_unfolding_all rfl)).1
      (by with_unfolding_all rfl)
    rw [show (calculateStats
        { soc_entity := some "s.soc", power_entity := some "s.p" }
        ⟨[("s.soc", ⟨"50", some "%"⟩), ("s.p", ⟨"500", some "W"⟩)]⟩) =
      some (mkStats { soc_entity := some "s.soc", power_entity := some "s.p" }
        ⟨[("s.soc", ⟨"50", some "%"⟩), ("s.p", ⟨"500", some "W"⟩)]⟩ 3
        (JSF.num 50) (JSF.num 500) "W") from by with_unfolding_all rfl]
    rw [Option.map_some']
    rw [h]

/-! ## C7 — `normalizeUnit` -/

/-- Claim C7. For every finite value `v` and unit string `u`,
`normalizeUnit(v, u)` equals `v * 1000` when `u` is a letter-case variant
of `kW` or `kWh`, and equals `v` unchanged for every other unit string,
including the empty string. -/
theorem claim7_normalizeUnit :
    ∀ v : ℚ, ∀ u : String,
      ((isCaseVariant u "kW" = true ∨ isCaseVariant u "kWh" = true) →
        normalizeUnit (JSF.num v) u = JSF.num (v * 1000)) ∧
      (isCaseVariant u "kW" = false → isCaseVariant u "kWh" = false →
        normalizeUnit (JSF.num v) u = JSF.num v) := by
  intro v u
  have ekw : asciiLower "kW" = "kw" := by rfl
  have ekwh : asciiLower "kWh" = "kwh" := by rfl
  constructor
  · intro h
    rcases h with h | h
    · simp only [isCaseVariant, ekw, decide_eq_true_eq] at h
      simp [normalizeUnit, h]
    · simp only [isCaseVariant, ekwh, decide_eq_true_eq] at h
      simp [normalizeUnit, h]
  · intro h1 h2
    simp only [isCaseVariant, ekw, decide_eq_false_iff_not] at h1
    simp only [isCaseVariant, ekwh, decide_eq_false_iff_not] at h2
    simp [normalizeUnit, h1, h2]

/-- Witness for C7: `KWH` (a case variant) scales, `W` and `""` do not. -/
theorem claim7_witness :
    normalizeUnit (JSF.num 2) "KWH" = JSF.num 2000 ∧
    normalizeUnit (JSF.num 2) "W" = JSF.num 2 ∧
    normalizeUnit (JSF.num 2) "" = JSF.num 2 := by
  refine ⟨?_, ?_, ?_⟩
  · have h := (claim7_normalizeUnit 2 "KWH").1 (Or.inr (by decide))
    rw [h]
    norm_num
  · exact (claim7_normalizeUnit 2 "W").2 (by decide) (by decide)
  · exact (claim7_normalizeUnit 2 "").2 (by decide) (by decide)

/-! ## C9 — `formatPower` -/

/-- Claim C9. For every finite watts value and decimal count, `formatPower`
renders kilo-units with the requested decimals (1 when the requested count
is 0) and unit `kW` whenever `|watts| ≥ 1000`, and otherwise the value
rounded to an integer with unit `W`; in particular
`formatPower(1500, 1) = {value: "1.5", unit: "kW"}` and
`formatPower(500, 0) = {value: "500", unit: "W"}`. -/
theorem claim9_formatPower :
    (∀ w : ℚ, ∀ d : ℕ,
      (1000 ≤ |w| → formatPower (JSF.num w) d =
        ⟨toFixedStr (w / 1000) (if d = 0 then 1 else d), "kW"⟩) ∧
      (|w| < 1000 → formatPower (JSF.num w) d =
        ⟨toString (⌊w + 1/2⌋ : ℤ), "W"⟩)) ∧
    formatPower (JSF.num 1500) 1 = ⟨"1.5", "kW"⟩ ∧
    formatPower (JSF.num 500) 0 = ⟨"500", "W"⟩ := by
  refine ⟨?_, ?_, ?_⟩
  · intro w d
    constructor
    · intro h
      rw [formatPower, jabs_num, jle_num, if_pos (by simpa using h),
        jdiv_num_of_ne _ _ (by norm_num)]
      rfl
    · intro h
      rw [formatPower, jabs_num, jle_num, if_neg (by simpa using not_le.mpr h),
        jround_num, numToString_intCast]
  · with_unfolding_all rfl
  · with_unfolding_all rfl

/-- Witness for C9 applying the general branches at 1500 and 500. -/
theorem claim9_witness :
    (1000 : ℚ) ≤ |(1500 : ℚ)| ∧
    formatPower (JSF.num 1500) 2 = ⟨toFixedStr (3/2) 2, "kW"⟩ ∧
    formatPower (JSF.num 500) 3 = ⟨toString (500 : ℤ), "W"⟩ := by
  refine ⟨by norm_num, ?_, ?_⟩
  · have h := ((claim9_formatPower.1 1500 2).1) (by norm_num)
    rw [h]
    norm_num
  · have h := ((claim9_formatPower.1 500 3).2) (by norm_num)
    rw [h]
    norm_num

/-! ## C8 — `formatDuration` -/

/-- Zero-padded `HH:MM:SS` rendering of a nonnegative minute count, as the
spec describes it: `HH = ⌊m/60⌋`, `MM = ⌊m mod 60⌋`, `SS = ⌊60·m mod 60⌋`. -/
def hhmmssOfMinutes (m : ℚ) : String :=
  padStart2 (toString ⌊m / 60⌋) ++ ":" ++
  padStart2 (toString ⌊m - 60 * ((⌊m / 60⌋ : ℤ) : ℚ)⌋) ++ ":" ++
  padStart2 (toString ⌊m * 60 - 60 * ((⌊m⌋ : ℤ) : ℚ)⌋)

lemma jdiv_num_60 (a : ℚ) :
    JSF.jdiv (JSF.num a) (JSF.num 60) = JSF.num (a / 60) :=
  jdiv_num_of_ne a 60 (by norm_num)

lemma jmod_num_60 (a : ℚ) :
    JSF.jmod (JSF.num a) (JSF.num 60)
      = JSF.num (a - 60 * JSF.ratTrunc (a / 60)) :=
  jmod_num_of_ne a 60 (by norm_num)

/-- Evaluation of `formatDuration` on a nonnegative finite minute count. -/
lemma formatDuration_num_nonneg (m : ℚ) (h0 : 0 ≤ m) :
    formatDuration (some (JSF.num m)) =
      if 99 < ⌊m / 60⌋ then "99:59:59+" else hhmmssOfMinutes m := by
  have h60 : (60 : ℚ) ≠ 0 := by norm_num
  have ht1 : JSF.ratTrunc (m / 60) = ⌊m / 60⌋ :=
    ratTrunc_of_nonneg _ (div_nonneg h0 (by norm_num))
  have ht2 : JSF.ratTrunc (m * 60 / 60) = ⌊m⌋ := by
    rw [mul_div_cancel_right₀ _ h60]
    exact ratTrunc_of_nonneg _ h0
  simp only [formatDuration]
  rw [if_neg (by simp [not_lt.mpr h0])]
  simp only [jdiv_num_60, jmod_num_60, jmul_num, jfloor_num, ht1, ht2,
    numToString_intCast, jlt_num, decide_eq_true_eq, hhmmssOfMinutes]
  by_cases hc : 99 < ⌊m / 60⌋
  · rw [if_pos (show (99 : ℚ) < ((⌊m / 60⌋ : ℤ) : ℚ) by exact_mod_cast hc),
      if_pos hc]
  · rw [if_neg (show ¬(99 : ℚ) < ((⌊m / 60⌋ : ℤ) : ℚ) by exact_mod_cast hc),
      if_neg hc]

/-- Claim C8. `formatDuration` renders dashes for absent (null) or negative
input, the capped display `99:59:59+` when the floored hour count exceeds
the two-digit field (`⌊m/60⌋ > 99`), and zero-padded `HH:MM:SS` otherwise;
in particular `formatDuration(125) = "02:05:00"`,
`formatDuration(-1) = "--:--:--"` and `formatDuration(6001) = "99:59:59+"`. -/
theorem claim8_formatDuration :
    formatDuration none = "--:--:--" ∧
    (∀ m : ℚ, m < 0 → formatDuration (some (JSF.num m)) = "--:--:--") ∧
    (∀ m : ℚ, 0 ≤ m → 99 < ⌊m / 60⌋ →
      formatDuration (some (JSF.num m)) = "99:59:59+") ∧
    (∀ m : ℚ, 0 ≤ m → ⌊m / 60⌋ ≤ 99 →
      formatDuration (some (JSF.num m)) = hhmmssOfMinutes m) ∧
    formatDuration (some (JSF.num 125)) = "02:05:00" ∧
    formatDuration (some (JSF.num (-1))) = "--:--:--" ∧
    formatDuration (some (JSF.num 6001)) = "99:59:59+" := by
  refine ⟨rfl, ?_, ?_, ?_, ?_, ?_, ?_⟩
  · intro m hm
    simp [formatDuration, hm]
  · intro m h0 hc
    rw [formatDuration_num_nonneg m h0, if_pos hc]
  · intro m h0 hc
    rw [formatDuration_num_nonneg m h0, if_neg (not_lt.mpr hc)]
  · with_unfolding_all rfl
  · with_unfolding_all rfl
  · with_unfolding_all rfl

/-- Witness for C8 applying the general clauses at concrete inputs. -/
theorem claim8_witness :
    formatDuration (some (JSF.num (-5))) = "--:--:--" ∧
    formatDuration (some (JSF.num 6000)) = "99:59:59+" ∧
    formatDuration (some (JSF.num 61)) = hhmmssOfMinutes 61 := by
  refine ⟨?_, ?_, ?_⟩
  · exact claim8_formatDuration.2.1 (-5) (by norm_num)
  · refine claim8_formatDuration.2.2.1 6000 (by norm_num) ?_
    rw [show ((6000 : ℚ) / 60) = 100 by norm_num]
    norm_num
  · refine claim8_formatDuration.2.2.2.1 61 (by norm_num) ?_
    rw [show ((61 : ℚ) / 60) = 61 / 60 by norm_num]
    rw [show (⌊(61 : ℚ) / 60⌋ : ℤ) = 1 from by
      rw [Int.floor_eq_iff]
      norm_num]
    norm_num

/-! ## C4 — fixed-value priority in `getEntityOrFixedValue` -/

/-- Claim C4. Whenever the configured fixed value is defined, non-null and
non-empty, `getEntityOrFixedValue` returns it (as parsed) with
`available = true`, `isFixed = true` and `unit = defaultUnit` — regardless
of any configured entity id and of that entity's state, including a
missing or unavailable entity. -/
theorem claim4_fixed_priority :
    ∀ hass : Hass, ∀ fv : String, ∀ eid : Option String, ∀ du : String,
      fv ≠ "" →
      getEntityOrFixedValue hass (some fv) eid du =
        ⟨some (parseFloat fv), du, true, true⟩ := by
  intro hass fv eid du h
  simp [getEntityOrFixedValue, h]

/-- Witness for C4: fixed `"42"` wins over a configured entity whose state
is the non-numeric `"unavailable"`. -/
theorem claim4_witness :
    getEntityOrFixedValue ⟨[("sensor.cap", ⟨"unavailable", none⟩)]⟩
        (some "42") (some "sensor.cap") "kWh"
      = ⟨some (JSF.num 42), "kWh", true, true⟩ := by
  have h := claim4_fixed_priority ⟨[("sensor.cap", ⟨"unavailable", none⟩)]⟩
    "42" (some "sensor.cap") "kWh" (by decide)
  rw [h]
  rw [show parseFloat "42" = JSF.num 42 from by with_unfolding_all rfl]

/-! ## C10 — a fixed value is returned available even when it parses as NaN -/

/-- Claim C10. A defined, non-null, non-empty fixed value is returned with
`available = true` and `isFixed = true` and `value = parseFloat(fixed)`
even when it does not parse as a number (the value is then NaN); the
unavailable sentinel (`value = null`, `available = false`) only arises on
the entity path, so `available = true` does not guarantee a numeric value
for fixed inputs. -/
theorem claim10_fixed_nan :
    (∀ hass : Hass, ∀ s : String, ∀ eid : Option String, ∀ du : String,
      s ≠ "" → parseFloat s = JSF.nan →
      getEntityOrFixedValue hass (some s) eid du
        = ⟨some JSF.nan, du, true, true⟩) ∧
    (∀ hass : Hass, ∀ fv eid : Option String, ∀ du : String,
      (getEntityOrFixedValue hass fv eid du).available = false →
      (getEntityOrFixedValue hass fv eid du).value = none ∧
      (getEntityOrFixedValue hass fv eid du).isFixed = false ∧
      (fv = none ∨ fv = some "")) := by
  constructor
  · intro hass s eid du hne hnan
    simp [getEntityOrFixedValue, hne, hnan]
  · intro hass fv eid du hav
    have hpath : ∀ h2 : (getEntityOrFixedValueEntityPath hass eid du).available = false,
        (getEntityOrFixedValueEntityPath hass eid du).value = none ∧
        (getEntityOrFixedValueEntityPath hass eid du).isFixed = false := by
      intro h2
      rcases eid with _ | i
      · simp [getEntityOrFixedValueEntityPath]
      · by_cases hi : i = ""
        · simp [getEntityOrFixedValueEntityPath, hi]
        · rcases hlk : Hass.lookup ⟨hass.states⟩ i with _ | e
          · simp [getEntityOrFixedValueEntityPath, hi, hlk]
          · rcases hpf : parseFloat e.state with q | _ | _ | _ <;>
              simp_all [getEntityOrFixedValueEntityPath, hi, hlk, hpf]
    rcases fv with _ | s
    · refine ⟨?_, ?_, Or.inl rfl⟩
      · exact (hpath (by simpa [getEntityOrFixedValue] using hav)).1
      · exact (hpath (by simpa [getEntityOrFixedValue] using hav)).2
    · by_cases hs : s = ""
      · subst hs
        refine ⟨?_, ?_, Or.inr rfl⟩
        · exact (hpath (by simpa [getEntityOrFixedValue] using hav)).1
        · exact (hpath (by simpa [getEntityOrFixedValue] using hav)).2
      · exact absurd hav (by simp [getEntityOrFixedValue, hs])

/-- Witness for C10: fixed `"abc"` parses as NaN yet is returned
available; `available` being true does not mean a numeric value. -/
theorem claim10_witness :
    getEntityOrFixedValue ⟨[]⟩ (some "abc") none "%"
      = ⟨some JSF.nan, "%", true, true⟩ := by
  exact claim10_fixed_nan.1 ⟨[]⟩ "abc" none "%" (by decide)
    (by with_unfolding_all rfl)

/-! ## C5 — mandatory-reading failures (corrected)

The claim says `_calculateStats` returns no snapshot whenever the SOC or
power entity's state string "does not parse as a finite number".  The code
only rejects NaN: `parseFloat("Infinity")` is `Infinity`, `isNaN` is false,
so the reading counts as available and a snapshot (with an infinite
`socPercent`) is produced.  The amended claim replaces "finite number" by
"number (i.e. parseFloat yields NaN)". -/

/-- Concrete host state for the counterexample: the SOC entity reports the
state string `"Infinity"`, the power entity a normal numeric reading. -/
def claim5Hass : Hass :=
  ⟨[("sensor.soc", ⟨"Infinity", some "%"⟩),
    ("sensor.power", ⟨"100", some "W"⟩)]⟩

/-- Card configuration for the counterexample. -/
def claim5Config : Config :=
  { soc_entity := some "sensor.soc", power_entity := some "sensor.power" }

/-- Claim C5, counterexample. The SOC state `"Infinity"` does not parse as a
finite number (`parseFloat` yields `Infinity`), yet `_calculateStats`
returns a snapshot instead of `null` — its `socPercent` is `Infinity`. -/
theorem claim5_counterexample :
    parseFloat "Infinity" = JSF.inf ∧
    calculateStats claim5Config claim5Hass ≠ none ∧
    (calculateStats claim5Config claim5Hass).map Stats.socPercent
      = some JSF.inf := by
  refine ⟨by with_unfolding_all rfl, ?_, by with_unfolding_all rfl⟩
  intro h
  rw [show calculateStats claim5Config claim5Hass
      = some (mkStats claim5Config claim5Hass 3 JSF.inf (JSF.num 100) "W")
    from by with_unfolding_all rfl] at h
  exact Option.noConfusion h

/-- A mandatory reading is bad when its entity is unconfigured (absent or
the empty id), missing from the state map, or its state parses as NaN. -/
def badMandatoryReading (hass : Hass) (eid : Option String) : Prop :=
  eid = none ∨ eid = some "" ∨
  (∃ i, eid = some i ∧ hass.lookup i = none) ∨
  (∃ i e, eid = some i ∧ hass.lookup i = some e ∧ parseFloat e.state = JSF.nan)

/-- A bad mandatory reading resolves to the unavailable sentinel. -/
lemma getEntityValue_unavailable {hass : Hass} {eid : Option String}
    (h : badMandatoryReading hass eid) :
    getEntityValue hass eid = ⟨none, "", false⟩ := by
  rcases h with h | h | ⟨i, hi, hlk⟩ | ⟨i, e, hi, hlk, hpf⟩
  · subst h
    rfl
  · subst h
    simp [getEntityValue]
  · subst hi
    by_cases hie : i = ""
    · simp [getEntityValue, hie]
    · simp [getEntityValue, hie, hlk]
  · subst hi
    by_cases hie : i = ""
    · simp [getEntityValue, hie]
    · simp [getEntityValue, hie, hlk, hpf]

/-- Claim C5, amended. If the SOC or the power entity is unconfigured, absent
from the state map, or its state string does not parse as a number
(`parseFloat` yields NaN), then `_calculateStats` returns `null`; and a
non-numeric state yields the unavailable sentinel
`{value: null, available: false}` from the resolver rather than an error
(all modelled functions are total, so no step of the
resolve/normalize/classify/derive pipeline can throw). -/
theorem claim5_amended :
    (∀ config hass,
      badMandatoryReading hass config.soc_entity ∨
        badMandatoryReading hass config.power_entity →
      calculateStats config hass = none) ∧
    (∀ hass : Hass, ∀ i : String, ∀ e : EntityState,
      hass.lookup i = some e → parseFloat e.state = JSF.nan →
      getEntityValue hass (some i) = ⟨none, "", false⟩) := by
  constructor
  · intro config hass h
    rcases h with h | h
    · have h2 := getEntityValue_unavailable h
      simp only [calculateStats]
      rw [h2]
    · have h2 := getEntityValue_unavailable h
      simp only [calculateStats]
      rw [h2]
      split
      · rfl
      · rfl
  · intro hass i e hlk hpf
    by_cases hie : i = ""
    · simp [getEntityValue, hie]
    · simp [getEntityValue, hie, hlk, hpf]

/-- Witness for C5 (amended) at concrete inputs: an unconfigured SOC
entity yields no snapshot; a power state of `"abc"` (NaN) yields no
snapshot; a non-numeric state resolves to the unavailable sentinel. -/
theorem claim5_witness :
    calculateStats { soc_entity := none } claim5Hass = none ∧
    calculateStats
        { soc_entity := some "sensor.power", power_entity := some "sensor.t" }
        ⟨[("sensor.power", ⟨"100", some "W"⟩), ("sensor.t", ⟨"abc", none⟩)]⟩
      = none ∧
    getEntityValue ⟨[("sensor.t", ⟨"abc", none⟩)]⟩ (some "sensor.t")
      = ⟨none, "", false⟩ := by
  refine ⟨?_, ?_, ?_⟩
  · exact claim5_amended.1 { soc_entity := none } claim5Hass (Or.inl (Or.inl rfl))
  · refine claim5_amended.1 _ _ (Or.inr ?_)
    refine Or.inr (Or.inr (Or.inr ⟨"sensor.t", ⟨"abc", none⟩, rfl, ?_, ?_⟩))
    · with_unfolding_all rfl
    · with_unfolding_all rfl
  · exact claim5_amended.2 ⟨[("sensor.t", ⟨"abc", none⟩)]⟩ "sensor.t"
      ⟨"abc", none⟩ (by with_unfolding_all rfl) (by with_unfolding_all rfl)

/-! ## C6 — the trickle-charge filter -/

/-- Claim C6. In every snapshot, writing `p` for the kW-normalized power
reading: with the filter enabled and `|p|` strictly below the configured
threshold (default 25) the stored power is forced to `0` and the status is
`idle`; with the filter disabled, or `|p|` at or above the threshold, the
power is stored unchanged. -/
theorem claim6_trickle_filter :
    ∀ config hass s, calculateStats config hass = some s →
    ∀ v, (getEntityValue hass config.power_entity).value = some v →
    ((config.enable_trickle_charge_filter = true →
      JSF.jlt
          (JSF.jabs (normalizedPower v (getEntityValue hass config.power_entity).unit))
          (JSF.num (config.trickle_charge_threshold.getD 25)) = true →
      s.power = JSF.num 0 ∧ s.status = BatteryStatus.idle) ∧
    ((config.enable_trickle_charge_filter = false ∨
      JSF.jle (JSF.num (config.trickle_charge_threshold.getD 25))
          (JSF.jabs (normalizedPower v (getEntityValue hass config.power_entity).unit))
        = true) →
      s.power = normalizedPower v (getEntityValue hass config.power_entity).unit)) := by
  intro config hass s h v hv
  obtain ⟨socV, pv, hsa, hsv, hpa, hpv, hs⟩ := calculateStats_inv h
  have hvv : v = pv := Option.some.inj (hv ▸ hpv)
  subst hvv
  constructor
  · intro hen hlt
    have hpow : s.power = JSF.num 0 := by
      rw [hs, mkStats_power]
      unfold trickleFiltered
      rw [hen, hlt]
      rfl
    refine ⟨hpow, ?_⟩
    rw [hs, mkStats_status, ← hs, hpow]
    with_unfolding_all rfl
  · intro hd
    rw [hs, mkStats_power]
    unfold trickleFiltered
    rcases hd with hd | hd
    · rw [hd]
      rfl
    · rw [jlt_eq_false_of_jle hd]
      simp

/-- Concrete host state for the C6 witness: 10 W of trickle power. -/
def claim6Hass : Hass :=
  ⟨[("s.soc", ⟨"50", some "%"⟩), ("s.p", ⟨"10", some "W"⟩)]⟩

/-- Configuration for the C6 witness: filter enabled, default threshold. -/
def claim6Config : Config :=
  { soc_entity := some "s.soc", power_entity := some "s.p",
    enable_trickle_charge_filter := true }

/-- The snapshot produced for the C6 witness. -/
def claim6Stats : Stats :=
  mkStats claim6Config claim6Hass 3 (JSF.num 50) (JSF.num 10) "W"

/-- Witness for C6: a 10 W reading below the default threshold 25 is
zeroed and classified `idle`. -/
theorem claim6_witness :
    claim6Stats.power = JSF.num 0 ∧ claim6Stats.status = BatteryStatus.idle := by
  exact (claim6_trickle_filter claim6Config claim6Hass claim6Stats
    (by with_unfolding_all rfl) (JSF.num 10) (by with_unfolding_all rfl)).1
    rfl (by with_unfolding_all rfl)

/-! ## C2 — when the snapshot carries a time-to-target projection -/

/-- Case analysis of the time-estimate block: a non-null projection needs
SOC-energy, capacity and nonzero power, and records the target percent
(cutoff-or-100 while charging, reserve while discharging); the projection
equals `calculateTimeToTarget` toward that target; discharging without a
reserve yields no projection. -/
lemma computeTimeEstimates_cases (se cw cp rp : Option JSF) (p : JSF)
    (st : BatteryStatus) :
    ((computeTimeEstimates se cw cp rp p st).1 ≠ none →
      se.isSome = true ∧ cw.isSome = true ∧ JSF.jeq0 p = false ∧
      ((st = BatteryStatus.charging ∧
          (computeTimeEstimates se cw cp rp p st).2
            = some (cp.getD (JSF.num 100))) ∨
       (st = BatteryStatus.discharging ∧ rp.isSome = true ∧
          (computeTimeEstimates se cw cp rp p st).2 = rp))) ∧
    (∀ e c, se = some e → cw = some c → JSF.jeq0 p = false →
      (st = BatteryStatus.charging →
        (computeTimeEstimates se cw cp rp p st).1 =
          calculateTimeToTarget e
            (c.jmul ((cp.getD (JSF.num 100)).jdiv (JSF.num 100))) p) ∧
      (∀ r, st = BatteryStatus.discharging → rp = some r →
        (computeTimeEstimates se cw cp rp p st).1 =
          calculateTimeToTarget e (c.jmul (r.jdiv (JSF.num 100))) p)) ∧
    (st = BatteryStatus.discharging → rp = none →
      (computeTimeEstimates se cw cp rp p st).1 = none) := by
  rcases se with _ | e <;> rcases cw with _ | c <;> rcases rp with _ | r <;>
    cases st <;> by_cases hp : p.jeq0 = true <;>
    simp_all [computeTimeEstimates]

/-- Claim C2. In every snapshot, `timeToTarget` is non-absent only when the
SOC-energy and capacity readings resolved, the (trickle-filtered) power is
nonzero, and the status/target pair follows the policy: while charging the
target percent is the resolved cutoff (else 100), while discharging it is
the resolved reserve and a missing reserve means no projection; moreover
the projection always equals `calculateTimeToTarget` toward
`capacityWh * targetPercent / 100`, so a power trending away from the
target leaves it absent. -/
theorem claim2_timeToTarget_policy :
    ∀ config hass s, calculateStats config hass = some s →
      (s.timeToTarget ≠ none →
        s.socEnergyWh.isSome = true ∧ s.capacityWh.isSome = true ∧
        JSF.jeq0 s.power = false ∧
        ((s.status = BatteryStatus.charging ∧
            s.targetPercent = some (s.cutoffPercent.getD (JSF.num 100))) ∨
         (s.status = BatteryStatus.discharging ∧
            s.reservePercent.isSome = true ∧
            s.targetPercent = s.reservePercent))) ∧
      (∀ e c, s.socEnergyWh = some e → s.capacityWh = some c →
        JSF.jeq0 s.power = false →
        (s.status = BatteryStatus.charging →
          s.timeToTarget = calculateTimeToTarget e
            (c.jmul ((s.cutoffPercent.getD (JSF.num 100)).jdiv (JSF.num 100)))
            s.power) ∧
        (∀ r, s.status = BatteryStatus.discharging → s.reservePercent = some r →
          s.timeToTarget = calculateTimeToTarget e
            (c.jmul (r.jdiv (JSF.num 100))) s.power)) ∧
      (s.status = BatteryStatus.discharging → s.reservePercent = none →
        s.timeToTarget = none) := by
  intro config hass s h
  obtain ⟨socV, pv, hsa, hsv, hpa, hpv, hs⟩ := calculateStats_inv h
  have htt : s.timeToTarget =
      (computeTimeEstimates s.socEnergyWh s.capacityWh s.cutoffPercent
        s.reservePercent s.power s.status).1 := by
    rw [hs]
    exact mkStats_timeToTarget ..
  have htp : s.targetPercent =
      (computeTimeEstimates s.socEnergyWh s.capacityWh s.cutoffPercent
        s.reservePercent s.power s.status).2 := by
    rw [hs]
    exact mkStats_targetPercent ..
  have hc := computeTimeEstimates_cases s.socEnergyWh s.capacityWh
    s.cutoffPercent s.reservePercent s.power s.status
  refine ⟨?_, ?_, ?_⟩
  · intro hne
    rw [htt] at hne
    obtain ⟨h1, h2, h3, h4⟩ := hc.1 hne
    refine ⟨h1, h2, h3, ?_⟩
    rcases h4 with ⟨hst, h5⟩ | ⟨hst, h6, h5⟩
    · exact Or.inl ⟨hst, by rw [htp, h5]⟩
    · exact Or.inr ⟨hst, h6, by rw [htp, h5]⟩
  · intro e c he hcw hp
    refine ⟨?_, ?_⟩
    · intro hst
      rw [htt]
      exact (hc.2.1 e c he hcw hp).1 hst
    · intro r hst hr
      rw [htt]
      exact (hc.2.1 e c he hcw hp).2 r hst hr
  · intro hst hr
    rw [htt]
    exact hc.2.2 hst hr

/-- Host state for the C2 witness: 40 % SOC, 1000 W charging, 4000 Wh
SOC-energy, 10 kWh fixed capacity, no cutoff (target 100 %). -/
def claim2Hass : Hass :=
  ⟨[("s.soc", ⟨"40", some "%"⟩), ("s.p", ⟨"1000", some "W"⟩),
    ("s.e", ⟨"4000", some "Wh"⟩)]⟩

/-- Configuration for the C2 witness. -/
def claim2Config : Config :=
  { soc_entity := some "s.soc", power_entity := some "s.p",
    soc_energy_entity := some "s.e", capacity := some "10" }

/-- The snapshot produced for the C2 witness; its projection is
`(10000 - 4000) / 1000 * 60 = 360` minutes toward 100 %. -/
def claim2Stats : Stats :=
  mkStats claim2Config claim2Hass 3 (JSF.num 40) (JSF.num 1000) "W"

/-- Witness for C2 on a charging snapshot with a live projection. -/
theorem claim2_witness :
    claim2Stats.timeToTarget = some (JSF.num 360) ∧
    (claim2Stats.socEnergyWh.isSome = true ∧
     claim2Stats.capacityWh.isSome = true ∧
     JSF.jeq0 claim2Stats.power = false ∧
     ((claim2Stats.status = BatteryStatus.charging ∧
       claim2Stats.targetPercent
         = some (claim2Stats.cutoffPercent.getD (JSF.num 100))) ∨
      (claim2Stats.status = BatteryStatus.discharging ∧
       claim2Stats.reservePercent.isSome = true ∧
       claim2Stats.targetPercent = claim2Stats.reservePercent))) := by
  have he : claim2Stats.timeToTarget = some (JSF.num 360) := by
    with_unfolding_all rfl
  refine ⟨he, ?_⟩
  refine (claim2_timeToTarget_policy claim2Config claim2Hass claim2Stats
    (by with_unfolding_all rfl)).1 ?_
  rw [he]
  exact fun hn => Option.noConfusion hn

/-- Witness for C1 at the worked example. -/
theorem claim1_witness :
    (1000 : ℚ) ≠ 0 ∧
    calculateTimeToTarget (JSF.num 3000) (JSF.num 5000) (JSF.num 1000)
      = some (JSF.num 120) := by
  refine ⟨by norm_num, ?_⟩
  have h := (claim1_calculateTimeToTarget.1 3000 5000 1000).2.2.2
    (by norm_num) (by norm_num) (by norm_num)
  rw [h]
  norm_num

end UBC
